import Mathlib

/-!
Verification of the Ghost server bootstrap module (`core/server/index.js`).

The file is a shallow embedding of the startup logic of the Ghost blogging
platform: the first-run / dbHash resolution (`initDbHashAndFirstRun`,
`doFirstRun`), the socket/port decision function (`getSocket`), the
listen/version-check/shutdown sequence (`startGhost` and the tail of `setup`),
and the promise chain of `setup` with its terminal error handler.

Asynchronous effects are embedded as explicit state passing (the settings
store and the notifications table become a `GhostState` record), and the
event-loop ordering of callbacks becomes explicit event traces
(`List Ev` / `List TEv`).  External collaborators (the ORM read, Node's
`semver.satisfies`, `process.uptime()`) enter as parameters describing the
outcome of the external call, exactly at the point the source consumes them.
-/

/-- A row of the notifications table, as built by `api.notifications.add`
in `doFirstRun` (source lines 50-55): `{type, message, status, id}`. -/
structure NotificationRecord where
  type_ : String
  message : String
  status : String
  id : String
deriving DecidableEq, Repr

/-- A row of the settings store, as passed to `models.Settings.add`
(source line 69): `{key, value, type}`. -/
structure SettingRow where
  key : String
  value : String
  type_ : String
deriving DecidableEq, Repr

/-- Outcome of a rejected `models.Settings.read`: either the row is absent
(the only legitimate "first run" signal) or the persistence layer failed for
another reason.  The source's `.otherwise` handler receives either one. -/
inductive ReadError
  | notFound
  | storageFailure (details : String)
deriving DecidableEq, Repr

/-- The process-wide state the bootstrap code mutates: the persisted settings
store, the notifications table, and the module-level `dbHash` variable
(source lines 30, 63, 71). -/
structure GhostState where
  settings : List SettingRow
  notifications : List NotificationRecord
  dbHash : Option String
deriving DecidableEq, Repr

/-- JavaScript `Array.prototype.join(sep)`: concatenate the elements with
`sep` between consecutive elements. -/
def joinSep (sep : String) : List String → String
  | [] => ""
  | [s] => s
  | s :: rest => s ++ sep ++ joinSep sep rest

/-- The `firstRunMessage` array of source lines 40-49, parametrised by
`process.env.NODE_ENV` and `config().url`. -/
def firstRunMessageParts (env url : String) : List String :=
  ["Welcome to Ghost.",
   "You\x27re running under the <strong>",
   env,
   "</strong>environment.",
   "Your URL is set to",
   "<strong>" ++ url ++ "</strong>.",
   "See <a href=\"http://docs.ghost.org/\">http://docs.ghost.org</a> for instructions."]

/-- The notification record inserted by `doFirstRun` (source lines 51-56):
type `info`, message `firstRunMessage.join(' ')`, status `persistent`,
id `ghost-first-run`. -/
def firstRunRecord (env url : String) : NotificationRecord :=
  { type_ := "info"
    message := joinSep " " (firstRunMessageParts env url)
    status := "persistent"
    id := "ghost-first-run" }

/-- Source lines 39-57: `doFirstRun` adds the first-run notification to the
notifications table. -/
def doFirstRun (env url : String) (st : GhostState) : GhostState :=
  { st with notifications := st.notifications ++ [firstRunRecord env url] }

/-- Outcome of `models.Settings.read(key)`: the stored value when a row with
that key exists, otherwise a not-found rejection. -/
def settingsRead (st : GhostState) (key : String) : Except ReadError String :=
  match st.settings.find? (fun row => row.key = key) with
  | some row => Except.ok row.value
  | none => Except.error ReadError.notFound

/-- Effect of `models.Settings.add({key, value, type})`: a new row is
persisted in the settings store. -/
def settingsAdd (st : GhostState) (row : SettingRow) : GhostState :=
  { st with settings := st.settings ++ [row] }

/-- Source lines 59-74: `initDbHashAndFirstRun`.  `readResult` is the outcome
of the external `models.Settings.read('dbHash')` call and `freshHash` the
value produced by the single `uuid.v4()` call of line 67.  On a successful
read the hash is retained in the module variable; on any rejection the fresh
hash is persisted under key `dbHash` with type `core`, retained, and
`doFirstRun` is executed. -/
def initDbHashAndFirstRun (readResult : Except ReadError String)
    (freshHash env url : String) (st : GhostState) : GhostState :=
  match readResult with
  | Except.ok v => { st with dbHash := some v }
  | Except.error _ =>
    let st1 := settingsAdd st { key := "dbHash", value := freshHash, type_ := "core" }
    let st2 := { st1 with dbHash := some freshHash }
    doFirstRun env url st2

/-- One startup's dbHash resolution against the actual settings store: the
read outcome of `initDbHashAndFirstRun` is the result of
`models.Settings.read('dbHash')` on the current store. -/
def startupDbHash (st : GhostState) (freshHash env url : String) : GhostState :=
  initDbHashAndFirstRun (settingsRead st "dbHash") freshHash env url st

/-- Shape of `config().server.socket`: the key is absent, or present with a
string value, or present with a non-string value (the three cases `getSocket`
distinguishes at source lines 149-152). -/
inductive ConfigSocket
  | absent
  | str (path : String)
  | nonString
deriving DecidableEq, Repr

/-- The `config().server` object: host, port, and the optional socket key. -/
structure ServerConfig where
  host : String
  port : Nat
  socket : ConfigSocket
deriving DecidableEq, Repr

/-- Lexical normalisation step of Node's `path.normalize`: drop empty and `.`
components, let `..` pop the previous component.  First argument is the
reversed stack of kept components. -/
def normStack : List String → List String → List String
  | acc, [] => acc.reverse
  | acc, c :: cs =>
    if c = "" || c = "." then normStack acc cs
    else if c = ".." then
      match acc with
      | [] => normStack [".."] cs
      | a :: rest => if a = ".." then normStack (".." :: a :: rest) cs else normStack rest cs
    else normStack (c :: acc) cs

/-- Node's `path.join`: concatenate the non-empty segments with `/` and
normalise the result lexically. -/
def nodePathJoin (parts : List String) : String :=
  let joined := String.intercalate "/" (parts.filter (fun p => p ≠ ""))
  let body := String.intercalate "/" (normStack [] (joined.splitOn "/"))
  if joined.startsWith "/" then "/" ++ body
  else if body = "" then "." else body

/-- The default socket path of source line 151:
`path.join(__dirname, '../content/', process.env.NODE_ENV + '.socket')`. -/
def defaultSocketPath (dirname env : String) : String :=
  nodePathJoin [dirname, "../content/", env ++ ".socket"]

/-- Source lines 148-153: `getSocket`.  Returns the configured socket path
when `server.socket` is a string, the environment-derived default path when
the key is present with a non-string value, and `false` (here `none`) when
the key is absent. -/
def getSocket (cfg : ServerConfig) (dirname env : String) : Option String :=
  match cfg.socket with
  | ConfigSocket.absent => none
  | ConfigSocket.str s => some s
  | ConfigSocket.nonString => some (defaultSocketPath dirname env)

/-- Observable events of the listen/start sequence at the tail of `setup`
(source lines 210-233) and of `startGhost` (source lines 155-207). -/
inductive Ev
  | unlinkCall (path : String)
  | listenSocketCall (path : String)
  | listenPortCall (port : Nat) (host : String)
  | chmodCall (path mode : String)
  | versionCheck (ok : Bool)
  | printVersionDiag
  | exitProcess (code : Nat)
  | logRunning (env : String)
  | registerSigint (env : String)
deriving DecidableEq, Repr

/-- Whether an event is a `server.listen` invocation. -/
def isListenEv : Ev → Bool
  | Ev.listenSocketCall _ => true
  | Ev.listenPortCall _ _ => true
  | _ => false

/-- Source lines 155-207: `startGhost`, the callback passed to
`server.listen`.  `versionOk` is the outcome of the external
`semver.satisfies(process.versions.node, packageInfo.engines.node)` call.
On an unsupported version it prints the diagnostic and calls
`process.exit(0)`; otherwise it logs the startup message and registers the
SIGINT handler (in both the production and non-production branches). -/
def startGhost (versionOk : Bool) (env : String) : List Ev :=
  if versionOk then
    [Ev.versionCheck true, Ev.logRunning env, Ev.registerSigint env]
  else
    [Ev.versionCheck false, Ev.printVersionDiag, Ev.exitProcess 0]

/-- Source lines 210-233: the tail of `setup` after `plugins.init()`
resolves.  `sock` is the (deterministic) value of `getSocket()`.  The
JavaScript `if (getSocket())` test is truthiness, so `some ""` takes the
host/port branch like `none`.  In socket mode the event-loop order is:
`fs.unlink` completes, its callback invokes `server.listen(sock, startGhost)`
and then `fs.chmod(sock, '0744')` synchronously; the `startGhost` listen
callback runs afterwards.  In port mode `server.listen(port, host,
startGhost)` is invoked and `startGhost` runs as its callback. -/
def startServer (sock : Option String) (port : Nat) (host : String)
    (versionOk : Bool) (env : String) : List Ev :=
  match sock with
  | some s =>
    if s = "" then Ev.listenPortCall port host :: startGhost versionOk env
    else
      Ev.unlinkCall s :: Ev.listenSocketCall s :: Ev.chmodCall s "0744" ::
        startGhost versionOk env
  | none => Ev.listenPortCall port host :: startGhost versionOk env

/-- JavaScript `Math.round`: round half toward positive infinity. -/
def jsMathRound (q : ℚ) : ℤ := ⌊q + 1/2⌋

/-- The SIGINT handler registered by `startGhost` (source lines 179-186 for
production, lines 197-205 otherwise): the `console.log` argument list and the
`process.exit` code.  `uptime` is the value of the external
`process.uptime()` call. -/
def sigintHandler (env : String) (uptime : ℚ) : List String × Nat :=
  if env = "production" then
    (["\nGhost has shut down", "\nYour blog is now offline"], 0)
  else
    (["\nGhost has shutdown", "\nGhost was running for",
      toString (jsMathRound uptime), "seconds"], 0)

/-- Outcomes of the nine asynchronous initialisation steps of the `setup`
promise chain (source lines 86-112 and 224): each step either resolves or
rejects with an error value. -/
structure InitOutcomes where
  modelsInit : Except String Unit
  updatePaths : Except String Unit
  populateDefaults : Except String Unit
  apiInit : Except String Unit
  themeUpdate : Except String Unit
  dbHashRun : Except String Unit
  permsInit : Except String Unit
  mailInit : Except String Unit
  pluginsInit : Except String Unit
deriving Repr

/-- `when.join(a, b)`: resolves when both resolve, rejects when either
rejects (embedded left-biased; the claims only depend on whether a rejection
surfaces, not on which of two simultaneous rejections wins). -/
def whenJoin (a b : Except String Unit) : Except String Unit := do
  a
  b

/-- The `setup` promise chain up to and including `mailer.init()` (source
lines 86-112): join(models.init, updatePaths); populateDefaults; api.init;
theme.update; join(initDbHashAndFirstRun, permissions.init); mailer.init. -/
def initChain (o : InitOutcomes) : Except String Unit := do
  whenJoin o.modelsInit o.updatePaths
  o.populateDefaults
  o.apiInit
  o.themeUpdate
  whenJoin o.dbHashRun o.permsInit
  o.mailInit

/-- What the end of `setup` observes: the server started, or the terminal
rejection handler `errors.logErrorAndExit` ran, or a rejection occurred that
no handler observes. -/
inductive SetupResult
  | started
  | handlerCalled (e : String)
  | unhandledRejection (e : String)
deriving DecidableEq, Repr

/-- Source lines 113-236: the final `.then(onFulfilled, onRejected)` of the
chain.  `onRejected` (line 234-236, `errors.logErrorAndExit`) observes any
rejection of the chain through `mailer.init()`.  `onFulfilled` runs the
configuration block and `plugins.init().then(start)` (line 224), whose
rejection is caught by no handler: a rejection inside `onFulfilled` is not
routed to the `onRejected` of the same `.then`. -/
def setupOutcome (o : InitOutcomes) : SetupResult :=
  match initChain o with
  | Except.error e => SetupResult.handlerCalled e
  | Except.ok _ =>
    match o.pluginsInit with
    | Except.error e => SetupResult.unhandledRejection e
    | Except.ok _ => SetupResult.started

/-- The eight initialisation phases of the `setup` promise chain before the
configuration block (source lines 86-112). -/
inductive Phase
  | modelsInit
  | updatePaths
  | populateDefaults
  | apiInit
  | themeUpdate
  | dbHashRun
  | permsInit
  | mailInit
deriving DecidableEq, Repr

/-- Start/completion events of an initialisation phase. -/
inductive TEv
  | start (p : Phase)
  | done (p : Phase)
deriving DecidableEq, Repr

/-- Trace of a sequential stage: the phase starts and completes before the
chain moves on. -/
def seqTrace (p : Phase) : List TEv := [TEv.start p, TEv.done p]

/-- Trace of a `when.join(p, q)` stage: both phases are started together,
and both complete (in either order, chosen by `flip`) before the chain moves
on. -/
def joinTrace (flip : Bool) (p q : Phase) : List TEv :=
  [TEv.start p, TEv.start q] ++
    (if flip then [TEv.done q, TEv.done p] else [TEv.done p, TEv.done q])

/-- The event trace of the `setup` chain of source lines 86-112, following
the chain structure: join(models.init, updatePaths) then populateDefaults
then api.init then theme.update then join(dbHash, permissions.init) then
mailer.init.  `flipA`/`flipB` choose the completion order inside the two
joins, which the event loop does not fix. -/
def initTrace (flipA flipB : Bool) : List TEv :=
  joinTrace flipA Phase.modelsInit Phase.updatePaths ++
  seqTrace Phase.populateDefaults ++
  seqTrace Phase.apiInit ++
  seqTrace Phase.themeUpdate ++
  joinTrace flipB Phase.dbHashRun Phase.permsInit ++
  seqTrace Phase.mailInit

/-- C9: every first-run notification created by `doFirstRun` has type
`info`, the fixed identifier `ghost-first-run`, status `persistent`, and a
message string that contains both the deployment environment name and the
configured URL. -/
theorem C9_firstRunRecord_shape (env url : String) (st : GhostState) :
    (doFirstRun env url st).notifications = st.notifications ++ [firstRunRecord env url] ∧
    (firstRunRecord env url).type_ = "info" ∧
    (firstRunRecord env url).id = "ghost-first-run" ∧
    (firstRunRecord env url).status = "persistent" ∧
    (∃ p s, (firstRunRecord env url).message = p ++ env ++ s) ∧
    (∃ p s, (firstRunRecord env url).message = p ++ url ++ s) := by
  refine ⟨rfl, rfl, rfl, rfl, ?_, ?_⟩
  · refine ⟨"Welcome to Ghost." ++ " " ++ "You\x27re running under the <strong>" ++ " ",
      " " ++ "</strong>environment." ++ " " ++ "Your URL is set to" ++ " " ++
        "<strong>" ++ url ++ "</strong>." ++ " " ++
        "See <a href=\"http://docs.ghost.org/\">http://docs.ghost.org</a> for instructions.",
      ?_⟩
    simp only [firstRunRecord, firstRunMessageParts, joinSep, String.append_assoc]
  · refine ⟨"Welcome to Ghost." ++ " " ++ "You\x27re running under the <strong>" ++ " " ++
        env ++ " " ++ "</strong>environment." ++ " " ++ "Your URL is set to" ++ " " ++
        "<strong>",
      "</strong>." ++ " " ++
        "See <a href=\"http://docs.ghost.org/\">http://docs.ghost.org</a> for instructions.",
      ?_⟩
    simp only [firstRunRecord, firstRunMessageParts, joinSep, String.append_assoc]

/-- C4: every rejection of the `dbHash` read, whether a genuine not-found or
any other persistence failure, takes the identical generation path: the fresh
hash is persisted under key `dbHash`, retained, and the first-run
notification is emitted; the error value is neither inspected nor
propagated. -/
theorem C4_read_errors_indistinguishable (e : ReadError) (fresh env url : String)
    (st : GhostState) :
    initDbHashAndFirstRun (Except.error e) fresh env url st =
      initDbHashAndFirstRun (Except.error ReadError.notFound) fresh env url st ∧
    initDbHashAndFirstRun (Except.error e) fresh env url st =
      { settings := st.settings ++ [{ key := "dbHash", value := fresh, type_ := "core" }],
        notifications := st.notifications ++ [firstRunRecord env url],
        dbHash := some fresh } := by
  exact ⟨rfl, rfl⟩

/-- C1: on a fresh installation (no `dbHash` row), one startup persists the
single freshly generated hash under key `dbHash`, retains it, and adds
exactly one first-run notification; a second startup then reads that value
back, creates no further notification, and retains the same hash. -/
theorem C1_first_run_idempotent (st : GhostState) (fresh1 fresh2 env url : String)
    (hfresh : settingsRead st "dbHash" = Except.error ReadError.notFound) :
    startupDbHash st fresh1 env url =
      { settings := st.settings ++ [{ key := "dbHash", value := fresh1, type_ := "core" }],
        notifications := st.notifications ++ [firstRunRecord env url],
        dbHash := some fresh1 } ∧
    (startupDbHash st fresh1 env url).notifications.length = st.notifications.length + 1 ∧
    settingsRead (startupDbHash st fresh1 env url) "dbHash" = Except.ok fresh1 ∧
    startupDbHash (startupDbHash st fresh1 env url) fresh2 env url =
      startupDbHash st fresh1 env url ∧
    (startupDbHash st fresh1 env url).dbHash = some fresh1 := by
  have hnone : st.settings.find? (fun row => row.key = "dbHash") = none := by
    cases hfind : st.settings.find? (fun row => row.key = "dbHash") with
    | none => rfl
    | some row => simp [settingsRead, hfind] at hfresh
  have h1 : startupDbHash st fresh1 env url =
      { settings := st.settings ++ [{ key := "dbHash", value := fresh1, type_ := "core" }],
        notifications := st.notifications ++ [firstRunRecord env url],
        dbHash := some fresh1 } := by
    simp [startupDbHash, hfresh, initDbHashAndFirstRun, settingsAdd, doFirstRun]
  have h2 : settingsRead (startupDbHash st fresh1 env url) "dbHash" = Except.ok fresh1 := by
    rw [h1]
    simp [settingsRead, List.find?_append, hnone]
  refine ⟨h1, ?_, h2, ?_, ?_⟩
  · rw [h1]; simp
  · rw [startupDbHash, h2, initDbHashAndFirstRun, h1]
  · rw [h1]

/-- C5: `getSocket` resolves a string-valued `server.socket` to that exact
string, a non-string `server.socket` to the environment-derived default
path, and an absent socket key to `false`, in which case the server listens
on the configured host and port. -/
theorem C5_getSocket_resolution (host : String) (port : Nat) (dirname env s : String)
    (versionOk : Bool) :
    getSocket { host := host, port := port, socket := ConfigSocket.str s } dirname env =
      some s ∧
    getSocket { host := host, port := port, socket := ConfigSocket.nonString } dirname env =
      some (defaultSocketPath dirname env) ∧
    getSocket { host := host, port := port, socket := ConfigSocket.absent } dirname env =
      none ∧
    startServer
        (getSocket { host := host, port := port, socket := ConfigSocket.absent } dirname env)
        port host versionOk env =
      Ev.listenPortCall port host :: startGhost versionOk env := by
  exact ⟨rfl, rfl, rfl, rfl⟩

/-- C7: in socket mode the stale socket file is unlinked before
`server.listen` is invoked on the same path, and the permissions of that
path are set to mode `0744`. -/
theorem C7_socket_unlink_before_listen (s : String) (hs : s ≠ "") (port : Nat)
    (host env : String) (versionOk : Bool) :
    startServer (some s) port host versionOk env =
      Ev.unlinkCall s :: Ev.listenSocketCall s :: Ev.chmodCall s "0744" ::
        startGhost versionOk env ∧
    Ev.chmodCall s "0744" ∈ startServer (some s) port host versionOk env := by
  have h : startServer (some s) port host versionOk env =
      Ev.unlinkCall s :: Ev.listenSocketCall s :: Ev.chmodCall s "0744" ::
        startGhost versionOk env := by
    simp [startServer, hs]
  exact ⟨h, by rw [h]; simp⟩

/-- Witness for C7 at a concrete socket path. -/
theorem C7_socket_unlink_before_listen_witness :
    ("/tmp/ghost-test.sock" : String) ≠ "" ∧
    (startServer (some "/tmp/ghost-test.sock") 2368 "localhost" true "development" =
      Ev.unlinkCall "/tmp/ghost-test.sock" :: Ev.listenSocketCall "/tmp/ghost-test.sock" ::
        Ev.chmodCall "/tmp/ghost-test.sock" "0744" :: startGhost true "development" ∧
     Ev.chmodCall "/tmp/ghost-test.sock" "0744" ∈
       startServer (some "/tmp/ghost-test.sock") 2368 "localhost" true "development") :=
  ⟨by decide,
   C7_socket_unlink_before_listen "/tmp/ghost-test.sock" (by decide) 2368 "localhost"
     "development" true⟩

/-- Counterexample to C2 as stated: with an unsupported Node version the
trace still contains a `server.listen` invocation (the version check runs
inside the listen callback), even though the process does exit with code 0.
The claim's clause that `server.listen` is never called is false. -/
theorem C2_counterexample :
    (startServer (some "/tmp/ghost.sock") 2368 "127.0.0.1" false "production").any
        isListenEv = true ∧
    Ev.exitProcess 0 ∈
      startServer (some "/tmp/ghost.sock") 2368 "127.0.0.1" false "production" := by
  decide

/-- C2 (amended): with an unsupported Node version the process prints the
diagnostic and exits with code 0, but only after `server.listen` has already
been invoked: the version check runs inside the listen callback, so a listen
invocation strictly precedes it in every configuration. -/
theorem C2_version_fail_exits_after_listen (sock : Option String) (port : Nat)
    (host env : String) :
    Ev.printVersionDiag ∈ startServer sock port host false env ∧
    Ev.exitProcess 0 ∈ startServer sock port host false env ∧
    ∃ pre, startServer sock port host false env =
        pre ++ [Ev.versionCheck false, Ev.printVersionDiag, Ev.exitProcess 0] ∧
      pre.any isListenEv = true := by
  have key : ∃ pre, startServer sock port host false env =
      pre ++ [Ev.versionCheck false, Ev.printVersionDiag, Ev.exitProcess 0] ∧
      pre.any isListenEv = true := by
    cases sock with
    | none => exact ⟨[Ev.listenPortCall port host], rfl, rfl⟩
    | some s =>
      by_cases hs : s = ""
      · exact ⟨[Ev.listenPortCall port host], by simp [startServer, hs, startGhost], rfl⟩
      · exact ⟨[Ev.unlinkCall s, Ev.listenSocketCall s, Ev.chmodCall s "0744"],
          by simp [startServer, hs, startGhost], by simp [isListenEv]⟩
  obtain ⟨pre, hpre, hlisten⟩ := key
  refine ⟨?_, ?_, pre, hpre, hlisten⟩ <;> rw [hpre] <;> simp

/-- C10: the SIGINT handler is registered exactly when the version check
passes, and its registration event always lies after both a `server.listen`
invocation and the passed version check; no SIGINT handler of this module
exists before the listener is started. -/
theorem C10_sigint_registered_after_listen (sock : Option String) (port : Nat)
    (host env : String) (versionOk : Bool) :
    ((Ev.registerSigint env ∈ startServer sock port host versionOk env) ↔
      versionOk = true) ∧
    (versionOk = true →
      ∃ pre, startServer sock port host versionOk env =
          pre ++ [Ev.registerSigint env] ∧
        pre.any isListenEv = true ∧ Ev.versionCheck true ∈ pre) := by
  cases versionOk with
  | false =>
    refine ⟨?_, by intro h; exact absurd h (by simp)⟩
    cases sock with
    | none => simp [startServer, startGhost]
    | some s =>
      by_cases hs : s = "" <;> simp [startServer, startGhost, hs]
  | true =>
    cases sock with
    | none =>
      refine ⟨by simp [startServer, startGhost], fun _ => ?_⟩
      exact ⟨[Ev.listenPortCall port host, Ev.versionCheck true, Ev.logRunning env],
        by simp [startServer, startGhost], rfl, by simp⟩
    | some s =>
      by_cases hs : s = ""
      · refine ⟨by simp [startServer, startGhost, hs], fun _ => ?_⟩
        exact ⟨[Ev.listenPortCall port host, Ev.versionCheck true, Ev.logRunning env],
          by simp [startServer, startGhost, hs], rfl, by simp⟩
      · refine ⟨by simp [startServer, startGhost, hs], fun _ => ?_⟩
        exact ⟨[Ev.unlinkCall s, Ev.listenSocketCall s, Ev.chmodCall s "0744",
            Ev.versionCheck true, Ev.logRunning env],
          by simp [startServer, startGhost, hs], by simp [isListenEv], by simp⟩

/-- Witness for C10 at a concrete configuration. -/
theorem C10_sigint_registered_after_listen_witness :
    ∃ pre, startServer none 2368 "localhost" true "development" =
        pre ++ [Ev.registerSigint "development"] ∧
      pre.any isListenEv = true ∧ Ev.versionCheck true ∈ pre :=
  (C10_sigint_registered_after_listen none 2368 "localhost" "development" true).2 rfl

/-- C8: once startup succeeded (the SIGINT handler was registered), the
handler logs a shutdown message and exits with code 0; outside production
the message includes the process uptime rounded to a non-negative whole
number of seconds. -/
theorem C8_sigint_shutdown (env : String) (uptime : ℚ) (sock : Option String)
    (port : Nat) (host : String)
    (hup : 0 ≤ uptime)
    (_hstarted : Ev.registerSigint env ∈ startServer sock port host true env) :
    (sigintHandler env uptime).2 = 0 ∧
    (sigintHandler env uptime).1 ≠ [] ∧
    (env ≠ "production" →
      toString (jsMathRound uptime) ∈ (sigintHandler env uptime).1 ∧
      0 ≤ jsMathRound uptime) := by
  refine ⟨?_, ?_, ?_⟩
  · unfold sigintHandler; split <;> rfl
  · unfold sigintHandler; split <;> simp
  · intro hprod
    unfold sigintHandler
    rw [if_neg hprod]
    refine ⟨by simp, ?_⟩
    unfold jsMathRound
    have h2 : ((0:ℤ):ℚ) ≤ uptime + 1/2 := by push_cast; linarith
    exact Int.le_floor.mpr h2

/-- Witness for C8 at environment `development` and uptime 1 second. -/
theorem C8_sigint_shutdown_witness :
    (0:ℚ) ≤ 1 ∧
    Ev.registerSigint "development" ∈ startServer none 2368 "localhost" true "development" ∧
    ((sigintHandler "development" 1).2 = 0 ∧
     (sigintHandler "development" 1).1 ≠ [] ∧
     (("development" : String) ≠ "production" →
       toString (jsMathRound 1) ∈ (sigintHandler "development" 1).1 ∧
       0 ≤ jsMathRound 1)) :=
  ⟨by norm_num,
   by simp [startServer, startGhost],
   C8_sigint_shutdown "development" 1 none 2368 "localhost" (by norm_num)
     (by simp [startServer, startGhost])⟩

/-- Witness for C1: a fresh empty installation, first and second startup. -/
theorem C1_first_run_idempotent_witness :
    settingsRead { settings := [], notifications := [], dbHash := none } "dbHash" =
      Except.error ReadError.notFound ∧
    (startupDbHash { settings := [], notifications := [], dbHash := none }
        "hash-one" "development" "http://localhost:2368" =
      { settings := [{ key := "dbHash", value := "hash-one", type_ := "core" }],
        notifications := [firstRunRecord "development" "http://localhost:2368"],
        dbHash := some "hash-one" } ∧
     (startupDbHash { settings := [], notifications := [], dbHash := none }
        "hash-one" "development" "http://localhost:2368").notifications.length = 1 ∧
     settingsRead (startupDbHash { settings := [], notifications := [], dbHash := none }
        "hash-one" "development" "http://localhost:2368") "dbHash" = Except.ok "hash-one" ∧
     startupDbHash (startupDbHash { settings := [], notifications := [], dbHash := none }
          "hash-one" "development" "http://localhost:2368")
        "hash-two" "development" "http://localhost:2368" =
      startupDbHash { settings := [], notifications := [], dbHash := none }
        "hash-one" "development" "http://localhost:2368" ∧
     (startupDbHash { settings := [], notifications := [], dbHash := none }
        "hash-one" "development" "http://localhost:2368").dbHash = some "hash-one") :=
  ⟨rfl,
   C1_first_run_idempotent { settings := [], notifications := [], dbHash := none }
     "hash-one" "hash-two" "development" "http://localhost:2368" rfl⟩

/-- Counterexample to C3 as stated: a rejection of `plugins.init()` does not
reach the terminal handler `errors.logErrorAndExit`.  The handler is the
`onRejected` of the final `.then`, while `plugins.init()` is called inside
that same `.then`'s `onFulfilled`, so its rejection is observed by no
handler. -/
theorem C3_counterexample :
    setupOutcome
      { modelsInit := Except.ok (), updatePaths := Except.ok (),
        populateDefaults := Except.ok (), apiInit := Except.ok (),
        themeUpdate := Except.ok (), dbHashRun := Except.ok (),
        permsInit := Except.ok (), mailInit := Except.ok (),
        pluginsInit := Except.error "plugin startup failure" } =
    SetupResult.unhandledRejection "plugin startup failure" := rfl

/-- C3 (amended): every rejection arising in the chain from model
initialisation through mail initialisation reaches the single terminal
handler, which observes exactly the chain's error; a rejection of
`plugins.init()`, however, is observed by no handler at all. -/
theorem C3_amended_terminal_handler (o : InitOutcomes) :
    (∀ e, initChain o = Except.error e → setupOutcome o = SetupResult.handlerCalled e) ∧
    ((o.modelsInit.isOk = false ∨ o.updatePaths.isOk = false ∨
      o.populateDefaults.isOk = false ∨ o.apiInit.isOk = false ∨
      o.themeUpdate.isOk = false ∨ o.dbHashRun.isOk = false ∨
      o.permsInit.isOk = false ∨ o.mailInit.isOk = false) →
      ∃ e, setupOutcome o = SetupResult.handlerCalled e) ∧
    (initChain o = Except.ok () → ∀ e, o.pluginsInit = Except.error e →
      setupOutcome o = SetupResult.unhandledRejection e) := by
  obtain ⟨m, p, d, a, t, hh, pe, ma, pl⟩ := o
  cases m <;> cases p <;> cases d <;> cases a <;> cases t <;> cases hh <;> cases pe <;>
    cases ma <;> cases pl <;>
    simp [initChain, whenJoin, setupOutcome, Except.isOk, Except.toBool, bind, Except.bind]

/-- Witness for C3 (amended): a mail-init rejection reaches the handler; a
plugins-init rejection is unhandled. -/
theorem C3_amended_terminal_handler_witness :
    (∃ e, setupOutcome
        { modelsInit := Except.ok (), updatePaths := Except.ok (),
          populateDefaults := Except.ok (), apiInit := Except.ok (),
          themeUpdate := Except.ok (), dbHashRun := Except.ok (),
          permsInit := Except.ok (), mailInit := Except.error "mail transport down",
          pluginsInit := Except.ok () } =
      SetupResult.handlerCalled e) ∧
    setupOutcome
        { modelsInit := Except.ok (), updatePaths := Except.ok (),
          populateDefaults := Except.ok (), apiInit := Except.ok (),
          themeUpdate := Except.ok (), dbHashRun := Except.ok (),
          permsInit := Except.ok (), mailInit := Except.ok (),
          pluginsInit := Except.error "sandbox violation" } =
      SetupResult.unhandledRejection "sandbox violation" :=
  ⟨(C3_amended_terminal_handler
      { modelsInit := Except.ok (), updatePaths := Except.ok (),
        populateDefaults := Except.ok (), apiInit := Except.ok (),
        themeUpdate := Except.ok (), dbHashRun := Except.ok (),
        permsInit := Except.ok (), mailInit := Except.error "mail transport down",
        pluginsInit := Except.ok () }).2.1 (by decide),
   (C3_amended_terminal_handler
      { modelsInit := Except.ok (), updatePaths := Except.ok (),
        populateDefaults := Except.ok (), apiInit := Except.ok (),
        themeUpdate := Except.ok (), dbHashRun := Except.ok (),
        permsInit := Except.ok (), mailInit := Except.ok (),
        pluginsInit := Except.error "sandbox violation" }).2.2 rfl
     "sandbox violation" rfl⟩

/-- C6: in the `setup` chain, model init and path computation start together
and both complete before settings defaults are populated; dbHash resolution
and permissions init start together, strictly after the settings cache and
the theme update complete; mail init starts only after both of those
complete — under every completion order inside the two joins. -/
theorem C6_init_ordering (flipA flipB : Bool) :
    ((initTrace flipA flipB).indexOf (TEv.start Phase.updatePaths) =
      (initTrace flipA flipB).indexOf (TEv.start Phase.modelsInit) + 1) ∧
    (initTrace flipA flipB).indexOf (TEv.done Phase.modelsInit) <
      (initTrace flipA flipB).indexOf (TEv.start Phase.populateDefaults) ∧
    (initTrace flipA flipB).indexOf (TEv.done Phase.updatePaths) <
      (initTrace flipA flipB).indexOf (TEv.start Phase.populateDefaults) ∧
    ((initTrace flipA flipB).indexOf (TEv.start Phase.permsInit) =
      (initTrace flipA flipB).indexOf (TEv.start Phase.dbHashRun) + 1) ∧
    (initTrace flipA flipB).indexOf (TEv.done Phase.apiInit) <
      (initTrace flipA flipB).indexOf (TEv.start Phase.dbHashRun) ∧
    (initTrace flipA flipB).indexOf (TEv.done Phase.themeUpdate) <
      (initTrace flipA flipB).indexOf (TEv.start Phase.dbHashRun) ∧
    (initTrace flipA flipB).indexOf (TEv.done Phase.dbHashRun) <
      (initTrace flipA flipB).indexOf (TEv.start Phase.mailInit) ∧
    (initTrace flipA flipB).indexOf (TEv.done Phase.permsInit) <
      (initTrace flipA flipB).indexOf (TEv.start Phase.mailInit) := by
  cases flipA <;> cases flipB <;> decide
